import Mathlib

/-
Verification of the GST Calculator backend (src/main.py, src/schemas.py).

The embedding models monetary values and rates as rationals (ℚ).  Python's
two-decimal `round(x, 2)` is modelled by `round2` below, built on Mathlib's
`round` (round-half-up on ℚ); the source relies on the runtime's default
rounding and the spec leaves the tie rule open, so any round-to-nearest is a
faithful model and every theorem below that depends on rounding uses only
properties shared by all round-to-nearest rules, except at explicit ties.

Strings are modelled by Lean `String`; Python's `str.lower` is per-character
ASCII lowercasing (`lower`), and Python's substring test `k in s` is the
character-list infix relation (`strContains`).

Database documents of the "gstcategory" collection are modelled as well-formed
`GSTCategory` records (they are only ever created through the validated
`CategoryIn`/`GSTCategory` schemas, so every field is present).  The fallible
`get_documents` call is modelled by an `Except` value passed in explicitly; the
best-effort audit-log write is modelled by a `logWriteOk` flag and the returned
list of written log records.
-/

namespace GST

/-- Python `round(x, 2)`: round to the nearest multiple of 1/100. -/
def round2 (x : ℚ) : ℚ := ((round (100 * x) : ℤ) : ℚ) / 100

/-- A value is a two-decimal quantity when rounding it to two decimals is the
identity, i.e. it is an integer number of cents. -/
def isTwoDecimal (x : ℚ) : Prop := round2 x = x

/-- Python `str.lower()` (per-character ASCII lowercasing). -/
def lower (s : String) : String := ⟨s.data.map Char.toLower⟩

/-- Python substring test `needle in haystack`. -/
def strContains (haystack needle : String) : Bool :=
  decide (needle.toList <:+: haystack.toList)

/-- GSTCategory (src/schemas.py lines 43-51): a category document. -/
structure GSTCategory where
  name : String
  rate : ℚ
  keywords : List String
  active : Bool
deriving Repr, DecidableEq

/-- The keyword list built by detect_category (src/main.py line 67):
`kws = [k.lower() for k in cat.get("keywords", [])] + [cat.get("name", "").lower()]`. -/
def catKeywords (cat : GSTCategory) : List String :=
  cat.keywords.map lower ++ [lower cat.name]

/-- The score of one category (src/main.py line 68):
`score = sum(1 for k in kws if k and k in description)` — the number of entries
of the keyword list (with multiplicity) that are non-empty and occur as a
substring of the (already lowercased) description. -/
def score (description : String) (cat : GSTCategory) : Nat :=
  ((catKeywords cat).filter (fun k => k ≠ "" && strContains description k)).length

/-- Modelled from the spec (section 4.1), for comparison with `score`: the
number of DISTINCT keywords (lowercased keywords together with the lowercased
name, as a set) that are non-empty and occur as a substring of the description. -/
def specScore (description : String) (cat : GSTCategory) : Nat :=
  ((catKeywords cat).dedup.filter (fun k => k ≠ "" && strContains description k)).length

/-- The best/best_score selection loop of detect_category
(src/main.py lines 64-71): strict `>` against the running best, starting from
`best = None`, `best_score = 0`. -/
def bestCategory (description : String) (categories : List GSTCategory) :
    Option GSTCategory × Nat :=
  categories.foldl
    (fun acc cat => if score description cat > acc.2 then (some cat, score description cat) else acc)
    (none, 0)

/-- The category fetch of detect_category (src/main.py lines 60-63):
`get_documents` may fail, and any failure degrades to the empty list. -/
def fetchedCategories (fetch : Except String (List GSTCategory)) : List GSTCategory :=
  match fetch with
  | .ok cats => cats
  | .error _ => []

/-- detect_category (src/main.py lines 58-79).  The source lowercases
`(description or "")`, fetches the category documents (failure degrading to
`[]`), runs the best-score loop, and returns the best document re-packaged as a
`GSTCategory` (the re-packaging at lines 73-78 copies the fields and is the
identity on well-formed documents), or `None` when no category was selected. -/
def detect_category (fetch : Except String (List GSTCategory))
    (description : Option String) : Option GSTCategory :=
  let desc := lower (description.getD "")
  (bestCategory desc (fetchedCategories fetch)).1

/-- CalculateRequest (src/main.py lines 81-85). -/
structure CalculateRequest where
  amount : ℚ
  description : Option String := none
  rate : Option ℚ := none
  mode : String := "exclusive"
deriving Repr, DecidableEq

/-- The pydantic field validation of CalculateRequest (src/main.py lines 82-84):
`amount ≥ 0` and, when a rate is supplied, `0 ≤ rate ≤ 100`. -/
def CalculateRequest.Valid (p : CalculateRequest) : Prop :=
  0 ≤ p.amount ∧ ∀ r, p.rate = some r → 0 ≤ r ∧ r ≤ 100

/-- CalculateResponse (src/main.py lines 87-93). -/
structure CalculateResponse where
  net_amount : ℚ
  gst_amount : ℚ
  gross_amount : ℚ
  applied_rate : ℚ
  detected_category : Option String
  source : String
deriving Repr, DecidableEq

/-- GSTCalculation (src/schemas.py lines 53-65): the audit-log record. -/
structure GSTCalculation where
  amount : ℚ
  mode : String
  applied_rate : ℚ
  computed_tax : ℚ
  net_amount : ℚ
  gross_amount : ℚ
  detected_category : Option String
  source : String
deriving Repr, DecidableEq

/-- An HTTPException raised by the handler. -/
structure HTTPError where
  status_code : Nat
  detail : String
deriving Repr, DecidableEq

/-- The default rate used when nothing is provided or detected
(src/main.py line 104). -/
def defaultRate : ℚ := 18

/-- calculate_tax (src/main.py lines 95-149).  Returns either the HTTP error
raised for an invalid mode, or the response paired with the list of audit-log
records written (empty when the best-effort write failed, which the source
swallows at lines 127-140). -/
def calculate_tax (fetch : Except String (List GSTCategory)) (logWriteOk : Bool)
    (payload : CalculateRequest) :
    Except HTTPError (CalculateResponse × List GSTCalculation) :=
  let amount := payload.amount
  let mode := lower payload.mode
  if mode ∉ (["exclusive", "inclusive"] : List String) then
    .error ⟨400, "mode must be \x27exclusive\x27 or \x27inclusive\x27"⟩
  else
    let resolution : Option GSTCategory × String × ℚ :=
      match payload.rate with
      | some r => (none, "provided", r)
      | none =>
        match detect_category fetch (some (payload.description.getD "")) with
        | some c =>
          if c.active then (some c, "detected", c.rate) else (some c, "default", defaultRate)
        | none => (none, "default", defaultRate)
    let detected := resolution.1
    let source := resolution.2.1
    let applied_rate := resolution.2.2
    let r := applied_rate / 100
    let amounts : ℚ × ℚ × ℚ :=
      if mode = "exclusive" then
        let net := amount
        let gst := round2 (net * r)
        (net, gst, round2 (net + gst))
      else
        let gross := amount
        let net := round2 (gross / (1 + r))
        (net, round2 (gross - net), gross)
    let net := amounts.1
    let gst := amounts.2.1
    let gross := amounts.2.2
    let logs : List GSTCalculation :=
      if logWriteOk then
        [{ amount := amount, mode := mode, applied_rate := applied_rate,
           computed_tax := gst, net_amount := net, gross_amount := gross,
           detected_category := detected.map GSTCategory.name, source := source }]
      else []
    .ok ({ net_amount := net, gst_amount := gst, gross_amount := gross,
           applied_rate := applied_rate,
           detected_category := detected.map GSTCategory.name,
           source := source }, logs)

/-! ### Concrete values used by the claim witnesses -/

def C1resp : CalculateResponse :=
  { net_amount := 100, gst_amount := round2 (100 * (5 / 100)),
    gross_amount := round2 (100 + round2 (100 * (5 / 100))),
    applied_rate := 5, detected_category := none, source := "provided" }

def C2resp : CalculateResponse :=
  { net_amount := round2 (118 / (1 + 18 / 100)),
    gst_amount := round2 (118 - round2 (118 / (1 + 18 / 100))),
    gross_amount := 118,
    applied_rate := 18, detected_category := none, source := "provided" }

def C4cat : GSTCategory := ⟨"Luxury", 28, ["yacht"], false⟩

def C4resp : CalculateResponse :=
  { net_amount := 100, gst_amount := round2 (100 * (defaultRate / 100)),
    gross_amount := round2 (100 + round2 (100 * (defaultRate / 100))),
    applied_rate := defaultRate, detected_category := some "Luxury", source := "default" }

def C10resp : CalculateResponse :=
  { net_amount := 100, gst_amount := round2 (100 * (defaultRate / 100)),
    gross_amount := round2 (100 + round2 (100 * (defaultRate / 100))),
    applied_rate := defaultRate, detected_category := some "Luxury", source := "default" }

def C8req : CalculateRequest := ⟨100, none, some 18, "exclusive"⟩

def C8resp : CalculateResponse :=
  { net_amount := 100, gst_amount := round2 (100 * (18 / 100)),
    gross_amount := round2 (100 + round2 (100 * (18 / 100))),
    applied_rate := 18, detected_category := none, source := "provided" }

def C9resp1 : CalculateResponse :=
  { net_amount := 100, gst_amount := round2 (100 * (18 / 100)),
    gross_amount := round2 (100 + round2 (100 * (18 / 100))),
    applied_rate := 18, detected_category := none, source := "provided" }

def C9resp2 : CalculateResponse :=
  { net_amount := round2 (C9resp1.gross_amount / (1 + 18 / 100)),
    gst_amount := round2 (C9resp1.gross_amount - round2 (C9resp1.gross_amount / (1 + 18 / 100))),
    gross_amount := C9resp1.gross_amount,
    applied_rate := 18, detected_category := none, source := "provided" }

/-! ### Helper lemmas about the embedded operations -/

/-- The best-score loop never moves off an accumulator when every remaining
category scores 0, because the comparison is strict. -/
theorem foldl_no_update (d : String) (cats : List GSTCategory) (acc : Option GSTCategory × Nat)
    (h : ∀ c ∈ cats, score d c = 0) :
    cats.foldl (fun acc cat =>
      if score d cat > acc.2 then (some cat, score d cat) else acc) acc = acc := by
  induction cats generalizing acc with
  | nil => rfl
  | cons c cs ih =>
    have hc : score d c = 0 := h c (by simp)
    simp only [List.foldl_cons, hc]
    rw [if_neg (by omega)]
    exact ih acc (fun x hx => h x (by simp [hx]))

/-- detect_category returns none when every available category scores 0. -/
theorem detect_category_eq_none (fetch : Except String (List GSTCategory)) (desc : Option String)
    (h : ∀ c ∈ fetchedCategories fetch, score (lower (desc.getD "")) c = 0) :
    detect_category fetch desc = none := by
  show (bestCategory (lower (desc.getD "")) (fetchedCategories fetch)).1 = none
  unfold bestCategory
  rw [foldl_no_update _ _ _ h]

/-- Against an empty description every category scores 0: a non-empty keyword
is never a substring of the empty string. -/
theorem score_empty_description (cat : GSTCategory) : score "" cat = 0 := by
  unfold score
  rw [List.length_eq_zero, List.filter_eq_nil_iff]
  intro k _
  by_cases hk : k = ""
  · simp [hk]
  · simp only [Bool.and_eq_true, decide_eq_true_eq, ne_eq]
    intro ⟨_, hcon⟩
    unfold strContains at hcon
    have h2 : k.toList <:+: "".toList := of_decide_eq_true hcon
    simp only [String.toList] at h2
    have hnil : k.data = [] := List.eq_nil_of_infix_nil h2
    exact hk (by cases k; simp_all)

/-- Rounding to two decimals always yields a two-decimal value. -/
theorem isTwoDecimal_round2 (x : ℚ) : isTwoDecimal (round2 x) := by
  unfold isTwoDecimal round2
  rw [mul_div_cancel₀ _ (by norm_num : (100:ℚ) ≠ 0), round_intCast]

/-- round2 is within half a cent of its argument. -/
theorem abs_round2_sub (x : ℚ) : |round2 x - x| ≤ 1 / 200 := by
  unfold round2
  have h := abs_sub_round (100 * x)
  rw [abs_sub_comm] at h
  have : |((round (100 * x) : ℤ) : ℚ) / 100 - x| = |(round (100 * x) : ℤ) - 100 * x| / 100 := by
    rw [← abs_of_pos (show (0:ℚ) < 100 by norm_num), ← abs_div]
    congr 1
    field_simp
  rw [this]
  linarith

/-- round2 of anything at least half a cent below zero is nonnegative. -/
theorem round2_nonneg (x : ℚ) (h : -(1 / 200) ≤ x) : 0 ≤ round2 x := by
  unfold round2
  have h0 : (0:ℤ) ≤ round (100 * x) := by
    rw [round_eq]
    exact Int.le_floor.2 (by push_cast; linarith)
  exact div_nonneg (by exact_mod_cast h0) (by norm_num)

/-- Rounding error analysis for the exclusive-then-inclusive round trip, at the
scale of cents.  With `n` the rounded cents of the amount `x`, `m` the rounded
cents of the tax `x * ρ`, the inclusive recomputation rounds `(n + m) / (1 + ρ)`
and lands within one cent of `x`. -/
theorem roundtrip_core (x ρ : ℚ) (hρ : 0 ≤ ρ) :
    |((round ((((round x : ℤ) : ℚ) + ((round (x * ρ) : ℤ) : ℚ)) / (1 + ρ)) : ℤ) : ℚ) - x| ≤ 1 := by
  rcases hρ.eq_or_lt with hρ0 | hρpos
  · rw [← hρ0]
    simp only [mul_zero, round_zero, Int.cast_zero, add_zero, div_one, round_intCast]
    have h := abs_sub_round x
    rw [abs_sub_comm] at h
    linarith [h, abs_le.1 h |>.1, abs_le.1 h |>.2]
  · have h1ρ : (0:ℚ) < 1 + ρ := by linarith
    set n : ℤ := round x with hn
    set m : ℤ := round (x * ρ) with hm
    set v : ℚ := (((n : ℤ) : ℚ) + ((m : ℤ) : ℚ)) / (1 + ρ) with hvdef
    set N : ℤ := round v with hN
    have hn1 : (n:ℚ) ≤ x + 1/2 := round_le_add_half x
    have hn2 : x - 1/2 < (n:ℚ) := sub_half_lt_round x
    have hm1 : (m:ℚ) ≤ x * ρ + 1/2 := round_le_add_half _
    have hm2 : x * ρ - 1/2 < (m:ℚ) := sub_half_lt_round _
    have hN1 : (N:ℚ) ≤ v + 1/2 := round_le_add_half v
    have hN2 : v - 1/2 < (N:ℚ) := sub_half_lt_round v
    have hv : v * (1 + ρ) = (n:ℚ) + (m:ℚ) := div_mul_cancel₀ _ (ne_of_gt h1ρ)
    rw [abs_le]
    constructor
    · rcases le_or_lt n N with hc | hc
      · have hq : (n:ℚ) ≤ (N:ℚ) := by exact_mod_cast hc
        linarith
      · rcases lt_or_le N (n - 1) with hc2 | hc2
        · exfalso
          have hq : (N:ℚ) ≤ (n:ℚ) - 2 := by
            have h2 : N ≤ n - 2 := by omega
            exact_mod_cast h2
          have hvlt : v < (n:ℚ) - 3/2 := by linarith
          have hmul : v * (1 + ρ) < ((n:ℚ) - 3/2) * (1 + ρ) :=
            mul_lt_mul_of_pos_right hvlt h1ρ
          nlinarith [mul_nonneg hρ (show (0:ℚ) ≤ x - (n:ℚ) + 3/2 by linarith)]
        · have hNn : N = n - 1 := by omega
          have hq : (N:ℚ) = (n:ℚ) - 1 := by exact_mod_cast hNn
          have hxn : x ≤ (n:ℚ) := by
            by_contra hx
            push_neg at hx
            have hvlt : v < (n:ℚ) - 1/2 := by linarith
            have hmul : v * (1 + ρ) < ((n:ℚ) - 1/2) * (1 + ρ) :=
              mul_lt_mul_of_pos_right hvlt h1ρ
            nlinarith [mul_pos hρpos (show (0:ℚ) < x - (n:ℚ) + 1/2 by linarith)]
          linarith
    · rcases le_or_lt N n with hc | hc
      · have hq : (N:ℚ) ≤ (n:ℚ) := by exact_mod_cast hc
        linarith
      · rcases lt_or_le (n + 1) N with hc2 | hc2
        · exfalso
          have hq : (n:ℚ) + 2 ≤ (N:ℚ) := by
            have h2 : n + 2 ≤ N := by omega
            exact_mod_cast h2
          have hvgt : (n:ℚ) + 3/2 ≤ v := by linarith
          have hmul : ((n:ℚ) + 3/2) * (1 + ρ) ≤ v * (1 + ρ) :=
            mul_le_mul_of_nonneg_right hvgt h1ρ.le
          nlinarith [mul_pos hρpos (show (0:ℚ) < (n:ℚ) + 3/2 - x by linarith)]
        · have hNn : N = n + 1 := by omega
          have hq : (N:ℚ) = (n:ℚ) + 1 := by exact_mod_cast hNn
          have hxn : (n:ℚ) ≤ x := by
            by_contra hx
            push_neg at hx
            have hvgt : (n:ℚ) + 1/2 ≤ v := by linarith
            have hmul : ((n:ℚ) + 1/2) * (1 + ρ) ≤ v * (1 + ρ) :=
              mul_le_mul_of_nonneg_right hvgt h1ρ.le
            nlinarith [mul_pos hρpos (show (0:ℚ) < (n:ℚ) + 1/2 - x by linarith)]
          linarith

/-- The round-trip error bound expressed with `round2` exactly as the two
calculation modes produce it. -/
theorem roundtrip_bridge (A R : ℚ) (hR : 0 ≤ R) :
    |round2 (round2 (A + round2 (A * (R / 100))) / (1 + R / 100)) - A| ≤ 1 / 100 := by
  have hρ : 0 ≤ R / 100 := by positivity
  have e1 : round2 (A * (R / 100)) = ((round ((100 * A) * (R / 100)) : ℤ) : ℚ) / 100 := by
    unfold round2
    rw [show (100:ℚ) * (A * (R / 100)) = (100 * A) * (R / 100) from by ring]
  have e2 : round2 (A + ((round ((100 * A) * (R / 100)) : ℤ) : ℚ) / 100) =
      (((round (100 * A) : ℤ) + (round ((100 * A) * (R / 100)) : ℤ) : ℤ) : ℚ) / 100 := by
    unfold round2
    rw [show (100:ℚ) * (A + ((round ((100 * A) * (R / 100)) : ℤ) : ℚ) / 100) =
        100 * A + ((round ((100 * A) * (R / 100)) : ℤ) : ℚ) from by ring]
    rw [round_add_int]
  rw [e1, e2]
  have e3 : round2 (((((round (100 * A) : ℤ) + (round ((100 * A) * (R / 100)) : ℤ) : ℤ) : ℚ) / 100) / (1 + R / 100)) =
      ((round ((((round (100 * A) : ℤ) : ℚ) + ((round ((100 * A) * (R / 100)) : ℤ) : ℚ)) / (1 + R / 100)) : ℤ) : ℚ) / 100 := by
    unfold round2
    congr 2
    push_cast
    ring_nf
  rw [e3]
  have core := roundtrip_core (100 * A) (R / 100) hρ
  rw [abs_le] at core ⊢
  constructor
  · linarith [core.1]
  · linarith [core.2]

/-- The best-score loop only ever selects a category from the scanned list. -/
theorem foldl_best_mem (d : String) (cats : List GSTCategory)
    (acc : Option GSTCategory × Nat) (c : GSTCategory)
    (h : (cats.foldl (fun acc cat =>
        if score d cat > acc.2 then (some cat, score d cat) else acc) acc).1 = some c) :
    c ∈ cats ∨ acc.1 = some c := by
  induction cats generalizing acc with
  | nil => right; exact h
  | cons a as ih =>
    simp only [List.foldl_cons] at h
    rcases ih _ h with h1 | h1
    · left; simp [h1]
    · by_cases hs : score d a > acc.2
      · rw [if_pos hs] at h1
        simp only [Option.some.injEq] at h1
        left; simp [h1]
      · rw [if_neg hs] at h1
        right; exact h1

/-- A detected category is one of the fetched documents. -/
theorem detect_category_mem (fetch : Except String (List GSTCategory))
    (desc : Option String) (c : GSTCategory)
    (h : detect_category fetch desc = some c) : c ∈ fetchedCategories fetch := by
  have h2 := foldl_best_mem (lower (desc.getD "")) (fetchedCategories fetch) (none, 0) c h
  rcases h2 with h2 | h2
  · exact h2
  · exact absurd h2 (by simp)

/-- Unfolding lemma: exclusive-mode calculation with a provided rate
(src/main.py lines 106-108 and 117-120). -/
theorem calculate_tax_exclusive (fetch : Except String (List GSTCategory)) (logOk : Bool)
    (A R : ℚ) (d : Option String) :
    calculate_tax fetch logOk ⟨A, d, some R, "exclusive"⟩ =
      .ok ({ net_amount := A, gst_amount := round2 (A * (R / 100)),
             gross_amount := round2 (A + round2 (A * (R / 100))),
             applied_rate := R, detected_category := none, source := "provided" },
           if logOk then
             [{ amount := A, mode := "exclusive", applied_rate := R,
                computed_tax := round2 (A * (R / 100)), net_amount := A,
                gross_amount := round2 (A + round2 (A * (R / 100))),
                detected_category := none, source := "provided" }]
           else []) := rfl

/-- Unfolding lemma: inclusive-mode calculation with a provided rate
(src/main.py lines 106-108 and 121-124). -/
theorem calculate_tax_inclusive (fetch : Except String (List GSTCategory)) (logOk : Bool)
    (A R : ℚ) (d : Option String) :
    calculate_tax fetch logOk ⟨A, d, some R, "inclusive"⟩ =
      .ok ({ net_amount := round2 (A / (1 + R / 100)),
             gst_amount := round2 (A - round2 (A / (1 + R / 100))),
             gross_amount := A,
             applied_rate := R, detected_category := none, source := "provided" },
           if logOk then
             [{ amount := A, mode := "inclusive", applied_rate := R,
                computed_tax := round2 (A - round2 (A / (1 + R / 100))),
                net_amount := round2 (A / (1 + R / 100)),
                gross_amount := A,
                detected_category := none, source := "provided" }]
           else []) := rfl

/-- For any accepted request, the mode (after lowercasing) is one of the two
valid modes and the three amounts follow the mode branch of the source
(src/main.py lines 117-124), expressed in terms of the applied rate. -/
theorem calculate_tax_mode_shape (fetch : Except String (List GSTCategory)) (logOk : Bool)
    (p : CalculateRequest) (resp : CalculateResponse) (logs : List GSTCalculation)
    (h : calculate_tax fetch logOk p = .ok (resp, logs)) :
    (lower p.mode = "exclusive" ∨ lower p.mode = "inclusive") ∧
    (lower p.mode = "exclusive" →
      resp.net_amount = p.amount ∧
      resp.gst_amount = round2 (p.amount * (resp.applied_rate / 100)) ∧
      resp.gross_amount = round2 (p.amount + round2 (p.amount * (resp.applied_rate / 100)))) ∧
    (lower p.mode = "inclusive" →
      resp.gross_amount = p.amount ∧
      resp.net_amount = round2 (p.amount / (1 + resp.applied_rate / 100)) ∧
      resp.gst_amount = round2 (p.amount - round2 (p.amount / (1 + resp.applied_rate / 100)))) := by
  simp only [calculate_tax] at h
  split at h
  · exact absurd h (by simp)
  · rename_i hmode
    simp only [List.mem_cons, List.mem_singleton, not_or, not_and, not_not,
      List.not_mem_nil, or_false] at hmode
    simp only [Except.ok.injEq, Prod.mk.injEq] at h
    obtain ⟨hresp, -⟩ := h
    subst hresp
    refine ⟨?_, ?_, ?_⟩
    · tauto
    · intro hex
      simp only [hex, if_pos]
      exact ⟨trivial, trivial, trivial⟩
    · intro hinc
      have hne : lower p.mode ≠ "exclusive" := by
        rw [hinc]; decide
      simp only [hinc] at hne ⊢
      rw [if_neg (by decide : ¬ ("inclusive" : String) = "exclusive")]
      exact ⟨rfl, rfl, rfl⟩

/-- Rate resolution (src/main.py lines 102-113): the applied rate, the source
tag and the echoed detected category, for each resolution path. -/
theorem calculate_tax_resolution (fetch : Except String (List GSTCategory)) (logOk : Bool)
    (p : CalculateRequest) (resp : CalculateResponse) (logs : List GSTCalculation)
    (h : calculate_tax fetch logOk p = .ok (resp, logs)) :
    (∀ r, p.rate = some r →
      resp.applied_rate = r ∧ resp.source = "provided" ∧ resp.detected_category = none) ∧
    (p.rate = none →
      (∀ c, detect_category fetch (some (p.description.getD "")) = some c →
        resp.detected_category = some c.name ∧
        (c.active = true → resp.applied_rate = c.rate ∧ resp.source = "detected") ∧
        (c.active = false → resp.applied_rate = defaultRate ∧ resp.source = "default")) ∧
      (detect_category fetch (some (p.description.getD "")) = none →
        resp.detected_category = none ∧ resp.applied_rate = defaultRate ∧
        resp.source = "default")) := by
  simp only [calculate_tax] at h
  split at h
  · exact absurd h (by simp)
  · simp only [Except.ok.injEq, Prod.mk.injEq] at h
    obtain ⟨hresp, -⟩ := h
    subst hresp
    constructor
    · intro r hr
      simp only [hr]
      exact ⟨trivial, trivial, rfl⟩
    · intro hr
      simp only [hr]
      constructor
      · intro c hdet
        simp only [hdet]
        refine ⟨?_, ?_, ?_⟩
        · cases hact : c.active <;> simp [hact]
        · intro hact; simp [hact]
        · intro hact; simp [hact]
      · intro hdet
        simp only [hdet]
        exact ⟨rfl, trivial, trivial⟩

/-! ### Claim theorems -/

/-- C1: For every amount ≥ 0, every rate in [0,100], and mode "exclusive", the
calculation returns net_amount = amount (the unrounded input), gst_amount =
round(amount × rate/100, 2 decimals), and gross_amount =
round(net_amount + gst_amount, 2 decimals). -/
theorem C1_exclusive_mode (fetch : Except String (List GSTCategory)) (logOk : Bool)
    (A R : ℚ) (d : Option String) (_hA : 0 ≤ A) (_hR0 : 0 ≤ R) (_hR1 : R ≤ 100)
    (resp : CalculateResponse) (logs : List GSTCalculation)
    (h : calculate_tax fetch logOk ⟨A, d, some R, "exclusive"⟩ = .ok (resp, logs)) :
    resp.net_amount = A ∧
    resp.gst_amount = round2 (A * (R / 100)) ∧
    resp.gross_amount = round2 (resp.net_amount + resp.gst_amount) := by
  rw [calculate_tax_exclusive] at h
  simp only [Except.ok.injEq, Prod.mk.injEq] at h
  obtain ⟨hresp, -⟩ := h
  subst hresp
  exact ⟨rfl, rfl, rfl⟩

theorem C1_witness :
    (0:ℚ) ≤ 100 ∧ ((0:ℚ) ≤ 5 ∧ (5:ℚ) ≤ 100) ∧
    calculate_tax (.ok []) false ⟨100, none, some 5, "exclusive"⟩ = .ok (C1resp, []) ∧
    (C1resp.net_amount = 100 ∧
     C1resp.gst_amount = round2 (100 * (5 / 100)) ∧
     C1resp.gross_amount = round2 (C1resp.net_amount + C1resp.gst_amount)) :=
  ⟨by norm_num, ⟨by norm_num, by norm_num⟩,
   calculate_tax_exclusive (.ok []) false 100 5 none,
   C1_exclusive_mode (.ok []) false 100 5 none (by norm_num) (by norm_num) (by norm_num)
     C1resp [] (calculate_tax_exclusive (.ok []) false 100 5 none)⟩

/-- C2: For every amount ≥ 0, every rate in [0,100], and mode "inclusive", the
calculation returns gross_amount = amount (the unrounded input), net_amount =
round(amount / (1 + rate/100), 2 decimals), and gst_amount =
round(gross_amount − net_amount, 2 decimals); in particular amount 118 at
rate 18 yields net 100.00, gst 18.00, gross 118.00 (checked in the witness). -/
theorem C2_inclusive_mode (fetch : Except String (List GSTCategory)) (logOk : Bool)
    (A R : ℚ) (d : Option String) (_hA : 0 ≤ A) (_hR0 : 0 ≤ R) (_hR1 : R ≤ 100)
    (resp : CalculateResponse) (logs : List GSTCalculation)
    (h : calculate_tax fetch logOk ⟨A, d, some R, "inclusive"⟩ = .ok (resp, logs)) :
    resp.gross_amount = A ∧
    resp.net_amount = round2 (A / (1 + R / 100)) ∧
    resp.gst_amount = round2 (resp.gross_amount - resp.net_amount) := by
  rw [calculate_tax_inclusive] at h
  simp only [Except.ok.injEq, Prod.mk.injEq] at h
  obtain ⟨hresp, -⟩ := h
  subst hresp
  exact ⟨rfl, rfl, rfl⟩

theorem C2_witness :
    (0:ℚ) ≤ 118 ∧ ((0:ℚ) ≤ 18 ∧ (18:ℚ) ≤ 100) ∧
    calculate_tax (.ok []) false ⟨118, none, some 18, "inclusive"⟩ = .ok (C2resp, []) ∧
    (C2resp.gross_amount = 118 ∧
     C2resp.net_amount = round2 (118 / (1 + 18 / 100)) ∧
     C2resp.gst_amount = round2 (C2resp.gross_amount - C2resp.net_amount)) ∧
    (C2resp.net_amount = 100 ∧ C2resp.gst_amount = 18 ∧ C2resp.gross_amount = 118) :=
  ⟨by norm_num, ⟨by norm_num, by norm_num⟩,
   calculate_tax_inclusive (.ok []) false 118 18 none,
   C2_inclusive_mode (.ok []) false 118 18 none (by norm_num) (by norm_num) (by norm_num)
     C2resp [] (calculate_tax_inclusive (.ok []) false 118 18 none),
   by refine ⟨?_, ?_, rfl⟩ <;> norm_num [C2resp, round2, round_eq]⟩

/-- C3: For every request with a non-null explicit rate in [0,100] (including
rate 0) and any description, the calculation uses that rate as applied_rate
with source "provided", and category detection is not performed: the result
does not depend on the category store at all. -/
theorem C3_provided_rate_overrides (fetch fetch2 : Except String (List GSTCategory))
    (logOk : Bool) (A R : ℚ) (d : Option String) (mode : String)
    (_hA : 0 ≤ A) (_hR0 : 0 ≤ R) (_hR1 : R ≤ 100) :
    calculate_tax fetch logOk ⟨A, d, some R, mode⟩ =
      calculate_tax fetch2 logOk ⟨A, d, some R, mode⟩ ∧
    (∀ resp logs, calculate_tax fetch logOk ⟨A, d, some R, mode⟩ = .ok (resp, logs) →
      resp.applied_rate = R ∧ resp.source = "provided") := by
  constructor
  · rfl
  · intro resp logs h
    have hres := (calculate_tax_resolution fetch logOk _ resp logs h).1 R rfl
    exact ⟨hres.1, hres.2.1⟩

theorem C3_witness :
    (0:ℚ) ≤ 100 ∧ ((0:ℚ) ≤ 5 ∧ (5:ℚ) ≤ 100) ∧
    (calculate_tax (.ok [⟨"Electronics", 18, ["laptop", "phone"], true⟩]) false
        ⟨100, some "laptop", some 5, "exclusive"⟩ =
      calculate_tax (.error "down") false ⟨100, some "laptop", some 5, "exclusive"⟩) ∧
    (∀ resp logs,
      calculate_tax (.ok [⟨"Electronics", 18, ["laptop", "phone"], true⟩]) false
          ⟨100, some "laptop", some 5, "exclusive"⟩ = .ok (resp, logs) →
      resp.applied_rate = 5 ∧ resp.source = "provided") :=
  ⟨by norm_num, ⟨by norm_num, by norm_num⟩,
   (C3_provided_rate_overrides (.ok [⟨"Electronics", 18, ["laptop", "phone"], true⟩])
      (.error "down") false 100 5 (some "laptop") "exclusive"
      (by norm_num) (by norm_num) (by norm_num)).1,
   (C3_provided_rate_overrides (.ok [⟨"Electronics", 18, ["laptop", "phone"], true⟩])
      (.error "down") false 100 5 (some "laptop") "exclusive"
      (by norm_num) (by norm_num) (by norm_num)).2⟩

/-- C5: For every request whose mode, after lowercasing, is neither
"exclusive" nor "inclusive", the operation fails with the 400 validation error
before any computation: the result is the error response, so no response is
produced and no calculation log record is written, whatever the category store
and the log writer would have done. -/
theorem C5_invalid_mode (fetch : Except String (List GSTCategory)) (logOk : Bool)
    (p : CalculateRequest)
    (h1 : lower p.mode ≠ "exclusive") (h2 : lower p.mode ≠ "inclusive") :
    calculate_tax fetch logOk p =
      .error ⟨400, "mode must be \x27exclusive\x27 or \x27inclusive\x27"⟩ := by
  unfold calculate_tax
  simp [h1, h2]

theorem C5_witness :
    lower "foo" ≠ "exclusive" ∧ lower "foo" ≠ "inclusive" ∧
    calculate_tax (.ok []) true ⟨100, none, none, "foo"⟩ =
      .error ⟨400, "mode must be \x27exclusive\x27 or \x27inclusive\x27"⟩ :=
  ⟨by decide, by decide,
   C5_invalid_mode (.ok []) true ⟨100, none, none, "foo"⟩ (by decide) (by decide)⟩
/-- C4: For every request without an explicit rate whose best-matching detected
category is inactive, that category rate is not applied: applied_rate is the
default 18.0 with source "default"; likewise when detection finds no match. -/
theorem C4_inactive_not_applied (fetch : Except String (List GSTCategory)) (logOk : Bool)
    (A : ℚ) (d : Option String) (mode : String) (_hA : 0 ≤ A)
    (resp : CalculateResponse) (logs : List GSTCalculation)
    (h : calculate_tax fetch logOk ⟨A, d, none, mode⟩ = .ok (resp, logs)) :
    (∀ c, detect_category fetch (some (d.getD "")) = some c → c.active = false →
      resp.applied_rate = 18 ∧ resp.source = "default") ∧
    (detect_category fetch (some (d.getD "")) = none →
      resp.applied_rate = 18 ∧ resp.source = "default") := by
  have hres := (calculate_tax_resolution fetch logOk _ resp logs h).2 rfl
  constructor
  · intro c hdet hact
    have h2 := (hres.1 c hdet).2.2 hact
    exact ⟨h2.1, h2.2⟩
  · intro hdet
    have h2 := hres.2 hdet
    exact ⟨h2.2.1, h2.2.2⟩

theorem C4_witness :
    (0:ℚ) ≤ 100 ∧
    calculate_tax (.ok [C4cat]) false ⟨100, some "yacht", none, "exclusive"⟩ =
      .ok (C4resp, []) ∧
    detect_category (.ok [C4cat]) (some ((some "yacht").getD "")) = some C4cat ∧
    C4cat.active = false ∧
    (C4resp.applied_rate = 18 ∧ C4resp.source = "default") :=
  ⟨by norm_num, rfl, by decide, rfl,
   (C4_inactive_not_applied (.ok [C4cat]) false 100 (some "yacht") "exclusive" (by norm_num)
      C4resp [] rfl).1 C4cat (by decide) rfl⟩
/-- C7: detect_category returns none whenever every available category scores
0 (in particular for an empty or missing description), and a failed category
fetch degrades to the empty collection, so the function returns none rather
than failing. -/
theorem C7_detect_none (fetch : Except String (List GSTCategory)) (desc : Option String) :
    ((∀ c ∈ fetchedCategories fetch, score (lower (desc.getD "")) c = 0) →
      detect_category fetch desc = none) ∧
    (∀ e, detect_category (.error e) desc = none) ∧
    ((desc = none ∨ desc = some "") → detect_category fetch desc = none) := by
  refine ⟨detect_category_eq_none fetch desc, fun e => rfl, fun hd => ?_⟩
  apply detect_category_eq_none
  intro c _
  have hdesc : lower (desc.getD "") = "" := by
    rcases hd with h | h <;> subst h <;> rfl
  rw [hdesc]
  exact score_empty_description c

theorem C7_witness :
    (∀ c ∈ fetchedCategories (.ok [⟨"Electronics", 18, ["laptop", "phone"], true⟩]),
      score (lower ((some "fresh bread").getD "")) c = 0) ∧
    detect_category (.ok [⟨"Electronics", 18, ["laptop", "phone"], true⟩])
      (some "fresh bread") = none ∧
    detect_category (.error "db down") (some "laptop") = none ∧
    ((some "" : Option String) = none ∨ (some "" : Option String) = some "") ∧
    detect_category (.ok [⟨"Electronics", 18, ["laptop", "phone"], true⟩]) (some "") = none :=
  ⟨by decide,
   (C7_detect_none (.ok [⟨"Electronics", 18, ["laptop", "phone"], true⟩])
      (some "fresh bread")).1 (by decide),
   (C7_detect_none (.ok []) (some "laptop")).2.1 "db down",
   Or.inr rfl,
   (C7_detect_none (.ok [⟨"Electronics", 18, ["laptop", "phone"], true⟩])
      (some "")).2.2 (Or.inr rfl)⟩

/-- C10: For every request without an explicit rate whose detection finds an
inactive best match, the response still echoes that category name in
detected_category even though the default rate is applied; and
detected_category is none exactly when detection finds no match. -/
theorem C10_detected_category_echoed (fetch : Except String (List GSTCategory)) (logOk : Bool)
    (A : ℚ) (d : Option String) (mode : String) (_hA : 0 ≤ A)
    (resp : CalculateResponse) (logs : List GSTCalculation)
    (h : calculate_tax fetch logOk ⟨A, d, none, mode⟩ = .ok (resp, logs)) :
    (∀ c, detect_category fetch (some (d.getD "")) = some c → c.active = false →
      resp.detected_category = some c.name ∧ resp.source = "default" ∧
      resp.applied_rate = 18) ∧
    (resp.detected_category = none ↔ detect_category fetch (some (d.getD "")) = none) := by
  have hres := (calculate_tax_resolution fetch logOk _ resp logs h).2 rfl
  constructor
  · intro c hdet hact
    have h1 := (hres.1 c hdet).1
    have h2 := (hres.1 c hdet).2.2 hact
    exact ⟨h1, h2.2, h2.1⟩
  · constructor
    · intro hnone
      rcases hd : detect_category fetch (some (d.getD "")) with _ | c
      · rfl
      · have h1 := (hres.1 c hd).1
        rw [h1] at hnone
        exact absurd hnone (by simp)
    · intro hdet
      exact (hres.2 hdet).1

theorem C10_witness :
    (0:ℚ) ≤ 100 ∧
    calculate_tax (.ok [⟨"Luxury", 28, ["yacht"], false⟩]) false
      ⟨100, some "yacht", none, "exclusive"⟩ = .ok (C10resp, []) ∧
    detect_category (.ok [⟨"Luxury", 28, ["yacht"], false⟩]) (some ((some "yacht").getD "")) =
      some ⟨"Luxury", 28, ["yacht"], false⟩ ∧
    (⟨"Luxury", 28, ["yacht"], false⟩ : GSTCategory).active = false ∧
    (C10resp.detected_category = some "Luxury" ∧ C10resp.source = "default" ∧
     C10resp.applied_rate = 18) :=
  ⟨by norm_num, rfl, by decide, rfl,
   (C10_detected_category_echoed (.ok [⟨"Luxury", 28, ["yacht"], false⟩]) false 100
      (some "yacht") "exclusive" (by norm_num) C10resp [] rfl).1
     ⟨"Luxury", 28, ["yacht"], false⟩ (by decide) rfl⟩
/-- C6 counterexample: the claim says duplicate keywords contribute once.  For
the category named "TV" with keyword list ["tv"], the keyword list is
["tv", "tv"] (keyword plus lowercased name), and for description "tv stand"
the code scores 2 while the claimed distinct count is 1. -/
theorem C6_counterexample :
    score "tv stand" ⟨"TV", 5, ["tv"], true⟩ = 2 ∧
    specScore "tv stand" ⟨"TV", 5, ["tv"], true⟩ = 1 ∧
    score "tv stand" ⟨"TV", 5, ["tv"], true⟩ ≠ specScore "tv stand" ⟨"TV", 5, ["tv"], true⟩ := by
  refine ⟨by decide, by decide, by decide⟩

/-- C6 amended: the detector score counts matching entries of the keyword list
(lowercased keywords followed by the lowercased category name) WITH
multiplicity: each distinct non-empty matching keyword contributes its number
of occurrences in that list, not 1. -/
theorem C6_score_with_multiplicity (description : String) (cat : GSTCategory) :
    score description cat =
      (((catKeywords cat).dedup.filter
          (fun k => k ≠ "" && strContains description k)).map
        (fun k => (catKeywords cat).count k)).sum := by
  unfold score
  rw [← List.countP_eq_length_filter]
  exact (List.sum_map_count_dedup_filter_eq_countP _ _).symm

/-- C8 counterexample: in exclusive mode net_amount is the raw input, not
rounded to two decimals: amount 0.001 is returned as net_amount 0.001, which
is not a two-decimal value (and is even larger than the computed gross 0.00). -/
theorem C8_counterexample :
    calculate_tax (.ok []) false ⟨1/1000, none, some 18, "exclusive"⟩ =
      .ok ({ net_amount := 1/1000, gst_amount := 0, gross_amount := 0,
             applied_rate := 18, detected_category := none, source := "provided" }, []) ∧
    ¬ isTwoDecimal (1/1000 : ℚ) := by
  constructor
  · rw [calculate_tax_exclusive]
    simp only [Except.ok.injEq, Prod.mk.injEq, CalculateResponse.mk.injEq]
    norm_num [round2, round_eq]
  · norm_num [isTwoDecimal, round2, round_eq]

/-- C8 amended: for every accepted request that is schema-valid (amount ≥ 0,
any provided rate in [0,100], category documents schema-valid), the three
returned amounts are nonnegative; the two amounts computed by rounding are
two-decimal values, while the pass-through amount (net in exclusive mode,
gross in inclusive mode) equals the raw unrounded input. -/
theorem C8_amounts (fetch : Except String (List GSTCategory)) (logOk : Bool)
    (p : CalculateRequest) (resp : CalculateResponse) (logs : List GSTCalculation)
    (hv : p.Valid)
    (hcat : ∀ c ∈ fetchedCategories fetch, 0 ≤ c.rate ∧ c.rate ≤ 100)
    (h : calculate_tax fetch logOk p = .ok (resp, logs)) :
    (0 ≤ resp.net_amount ∧ 0 ≤ resp.gst_amount ∧ 0 ≤ resp.gross_amount) ∧
    (lower p.mode = "exclusive" →
      resp.net_amount = p.amount ∧
      isTwoDecimal resp.gst_amount ∧ isTwoDecimal resp.gross_amount) ∧
    (lower p.mode = "inclusive" →
      resp.gross_amount = p.amount ∧
      isTwoDecimal resp.net_amount ∧ isTwoDecimal resp.gst_amount) := by
  obtain ⟨hA, hrate⟩ := hv
  -- the applied rate is nonnegative on every resolution path
  have har : 0 ≤ resp.applied_rate := by
    have hres := calculate_tax_resolution fetch logOk p resp logs h
    rcases hp : p.rate with _ | r
    · have h2 := hres.2 hp
      rcases hd : detect_category fetch (some (p.description.getD "")) with _ | c
      · rw [(h2.2 hd).2.1]; norm_num [defaultRate]
      · have hmem := detect_category_mem fetch _ c hd
        cases hact : c.active
        · rw [((h2.1 c hd).2.2 hact).1]; norm_num [defaultRate]
        · rw [((h2.1 c hd).2.1 hact).1]
          exact (hcat c hmem).1
    · rw [(hres.1 r hp).1]
      exact (hrate r hp).1
  have hshape := calculate_tax_mode_shape fetch logOk p resp logs h
  obtain ⟨hmode, hex, hinc⟩ := hshape
  have hdiv : (0:ℚ) < 1 + resp.applied_rate / 100 := by linarith
  rcases hmode with hm | hm
  · obtain ⟨e1, e2, e3⟩ := hex hm
    have hgst : 0 ≤ resp.gst_amount := by
      rw [e2]
      apply round2_nonneg
      nlinarith
    refine ⟨⟨by rw [e1]; exact hA, hgst, ?_⟩, fun _ => ⟨e1, by rw [e2]; exact isTwoDecimal_round2 _, by rw [e3]; exact isTwoDecimal_round2 _⟩, fun hm2 => ?_⟩
    · rw [e3]
      apply round2_nonneg
      nlinarith [hgst, hA, round2_nonneg (p.amount * (resp.applied_rate / 100)) (by nlinarith)]
    · rw [hm] at hm2
      exact absurd hm2 (by decide)
  · obtain ⟨e1, e2, e3⟩ := hinc hm
    have hnet0 : 0 ≤ resp.net_amount := by
      rw [e2]
      apply round2_nonneg
      have : 0 ≤ p.amount / (1 + resp.applied_rate / 100) := by positivity
      linarith
    have hnetle : resp.net_amount ≤ p.amount + 1/200 := by
      have hb := abs_round2_sub (p.amount / (1 + resp.applied_rate / 100))
      rw [abs_le] at hb
      have hds : p.amount / (1 + resp.applied_rate / 100) ≤ p.amount := by
        apply div_le_self hA
        linarith
      rw [e2]
      linarith [hb.2]
    have hgst : 0 ≤ resp.gst_amount := by
      rw [e3, ← e1]
      apply round2_nonneg
      rw [e1]
      linarith
    refine ⟨⟨hnet0, hgst, by rw [e1]; exact hA⟩, fun hm2 => ?_, fun _ => ⟨e1, by rw [e2]; exact isTwoDecimal_round2 _, by rw [e3]; exact isTwoDecimal_round2 _⟩⟩
    rw [hm] at hm2
    exact absurd hm2 (by decide)
theorem C8_witness :
    C8req.Valid ∧
    (∀ c ∈ fetchedCategories (.ok []), 0 ≤ c.rate ∧ c.rate ≤ 100) ∧
    calculate_tax (.ok []) false C8req = .ok (C8resp, []) ∧
    ((0 ≤ C8resp.net_amount ∧ 0 ≤ C8resp.gst_amount ∧ 0 ≤ C8resp.gross_amount) ∧
     (lower C8req.mode = "exclusive" →
       C8resp.net_amount = C8req.amount ∧
       isTwoDecimal C8resp.gst_amount ∧ isTwoDecimal C8resp.gross_amount) ∧
     (lower C8req.mode = "inclusive" →
       C8resp.gross_amount = C8req.amount ∧
       isTwoDecimal C8resp.net_amount ∧ isTwoDecimal C8resp.gst_amount)) :=
  have hv : C8req.Valid :=
    ⟨by norm_num [C8req], fun r hr => by
      simp only [C8req] at hr
      cases hr
      exact ⟨by norm_num, by norm_num⟩⟩
  have hcat : ∀ c ∈ fetchedCategories (.ok []), 0 ≤ c.rate ∧ c.rate ≤ 100 :=
    fun c hc => absurd hc (by simp [fetchedCategories])
  ⟨hv, hcat, calculate_tax_exclusive (.ok []) false 100 18 none,
   C8_amounts (.ok []) false C8req C8resp [] hv hcat
     (calculate_tax_exclusive (.ok []) false 100 18 none)⟩

/-- C9: round-trip.  If exclusive mode on amount A with rate R gives gross G,
then inclusive mode on amount G with the same rate gives a net within 0.01
of A. -/
theorem C9_roundtrip (fetch fetch2 : Except String (List GSTCategory))
    (logOk logOk2 : Bool) (A R : ℚ) (d d2 : Option String)
    (_hA : 0 ≤ A) (hR0 : 0 ≤ R) (_hR1 : R ≤ 100)
    (resp1 resp2 : CalculateResponse) (logs1 logs2 : List GSTCalculation)
    (h1 : calculate_tax fetch logOk ⟨A, d, some R, "exclusive"⟩ = .ok (resp1, logs1))
    (h2 : calculate_tax fetch2 logOk2 ⟨resp1.gross_amount, d2, some R, "inclusive"⟩ =
      .ok (resp2, logs2)) :
    |resp2.net_amount - A| ≤ 1 / 100 := by
  rw [calculate_tax_exclusive] at h1
  simp only [Except.ok.injEq, Prod.mk.injEq] at h1
  obtain ⟨h1r, -⟩ := h1
  rw [calculate_tax_inclusive] at h2
  simp only [Except.ok.injEq, Prod.mk.injEq] at h2
  obtain ⟨h2r, -⟩ := h2
  subst h2r
  subst h1r
  exact roundtrip_bridge A R hR0

theorem C9_witness :
    (0:ℚ) ≤ 100 ∧ ((0:ℚ) ≤ 18 ∧ (18:ℚ) ≤ 100) ∧
    calculate_tax (.ok []) false ⟨100, none, some 18, "exclusive"⟩ = .ok (C9resp1, []) ∧
    calculate_tax (.ok []) false ⟨C9resp1.gross_amount, none, some 18, "inclusive"⟩ =
      .ok (C9resp2, []) ∧
    |C9resp2.net_amount - 100| ≤ 1 / 100 :=
  ⟨by norm_num, ⟨by norm_num, by norm_num⟩,
   calculate_tax_exclusive (.ok []) false 100 18 none,
   calculate_tax_inclusive (.ok []) false C9resp1.gross_amount 18 none,
   C9_roundtrip (.ok []) (.ok []) false false 100 18 none none
     (by norm_num) (by norm_num) (by norm_num) C9resp1 C9resp2 [] []
     (calculate_tax_exclusive (.ok []) false 100 18 none)
     (calculate_tax_inclusive (.ok []) false C9resp1.gross_amount 18 none)⟩

end GST
